import Mathlib

/-!
# NebulaShell core: a shallow embedding with verified properties

This development embeds the core data model and operations of the
NebulaShell SSH-gateway backend (`src-tauri/src`) into Lean:

* the error taxonomy (`AppError`) and its wire codes (`types.rs`),
* connection-config validation and the session registry (`ssh/mod.rs`),
* the transfer coordinator's admission check (`transfer.rs`),
* the security gate: rate limiting, connection tracking and key
  fingerprints (`security.rs`),
* the recorder's size-cap logic (`recording.rs`).

Timestamps (`DateTime<Utc>` in the source) are modelled as `Int` ticks,
one tick per second, so `Duration::minutes(n)` is `60 * n`.  Live library
handles (`ssh2::Session`, `ssh2::Channel`, `ssh2::Sftp`) are modelled as
opaque `Nat` tokens: the claims concern only their presence or absence.
Outcomes of external I/O (socket reads, SFTP calls) are passed in as
explicit oracle values mirroring the `Result` the library would return.
-/

/-- Association-list lookup keyed by strings, first match wins
(models `DashMap::get`). -/
def lookupA {α : Type} : List (String × α) → String → Option α
  | [], _ => none
  | (k, v) :: t, key => if k = key then some v else lookupA t key

/-- Remove every binding for a key (models `DashMap::remove`). -/
def removeA {α : Type} : List (String × α) → String → List (String × α)
  | [], _ => []
  | (k, v) :: t, key => if k = key then removeA t key else (k, v) :: removeA t key

/-- Insert-or-replace a binding (models `DashMap::insert`). -/
def setA {α : Type} (l : List (String × α)) (key : String) (v : α) :
    List (String × α) :=
  (key, v) :: removeA l key

theorem lookupA_setA_self {α : Type} (l : List (String × α)) (key : String) (v : α) :
    lookupA (setA l key v) key = some v := by
  simp [setA, lookupA]

theorem lookupA_removeA_self {α : Type} (l : List (String × α)) (key : String) :
    lookupA (removeA l key) key = none := by
  induction l with
  | nil => simp [removeA, lookupA]
  | cons h t ih =>
    obtain ⟨k, v⟩ := h
    by_cases hk : k = key
    · simpa [removeA, hk] using ih
    · simp [removeA, hk, lookupA, ih]

theorem lookupA_removeA_ne {α : Type} (l : List (String × α)) (key k : String)
    (h : k ≠ key) : lookupA (removeA l key) k = lookupA l k := by
  induction l with
  | nil => rfl
  | cons hd t ih =>
    obtain ⟨k₁, v₁⟩ := hd
    by_cases hk : k₁ = key
    · subst hk
      simp [removeA, lookupA, Ne.symm h, ih]
    · by_cases hk2 : k₁ = k
      · simp [removeA, hk, lookupA, hk2, h]
      · simp [removeA, hk, lookupA, hk2, ih]

theorem lookupA_setA_ne {α : Type} (l : List (String × α)) (key k : String) (v : α)
    (h : k ≠ key) : lookupA (setA l key v) k = lookupA l k := by
  simp [setA, lookupA, Ne.symm h, lookupA_removeA_ne l key k h]

/-! ## Error taxonomy (`types.rs`, `enum AppError`) -/

/-- `AppError` from `types.rs`.  The `IOError`, `SSH2Error` and
`SerializationError` wrappers carry library error values; their payload is
modelled as the rendered message string. -/
inductive AppError where
  | SSHConnectionFailed (msg : String)
  | SSHAuthenticationFailed (msg : String)
  | SessionNotFound (msg : String)
  | InvalidConfiguration (msg : String)
  | FileOperationFailed (msg : String)
  | WebSocketError (msg : String)
  | TransferError (msg : String)
  | PermissionDenied (msg : String)
  | ResourceExhausted (msg : String)
  | TimeoutError (msg : String)
  | ValidationError (msg : String)
  | InternalError (msg : String)
  | OperationFailed (msg : String)
  | NotFound (msg : String)
  | IOError (msg : String)
  | SSH2Error (msg : String)
  | SerializationError (msg : String)
  deriving Repr, DecidableEq

/-- `AppError::error_code` from `types.rs`. -/
def AppError.error_code : AppError → String
  | .SSHConnectionFailed _ => "CONNECTION_FAILED"
  | .SSHAuthenticationFailed _ => "AUTH_FAILED"
  | .SessionNotFound _ => "SESSION_NOT_FOUND"
  | .InvalidConfiguration _ => "INVALID_CONFIG"
  | .FileOperationFailed _ => "FILE_OPERATION_FAILED"
  | .WebSocketError _ => "WEBSOCKET_ERROR"
  | .TransferError _ => "TRANSFER_ERROR"
  | .PermissionDenied _ => "PERMISSION_DENIED"
  | .ResourceExhausted _ => "RESOURCE_EXHAUSTED"
  | .TimeoutError _ => "TIMEOUT_ERROR"
  | .ValidationError _ => "VALIDATION_ERROR"
  | .InternalError _ => "INTERNAL_ERROR"
  | .OperationFailed _ => "OPERATION_FAILED"
  | .NotFound _ => "NOT_FOUND"
  | .IOError _ => "IO_ERROR"
  | .SSH2Error _ => "SSH2_ERROR"
  | .SerializationError _ => "SERIALIZATION_ERROR"

/-! ## Connection config and validation (`types.rs`, `ssh/mod.rs`) -/

/-- `SSHConnectionConfig` from `types.rs`; `port` is a `u16`. -/
structure SSHConnectionConfig where
  id : String
  hostname : String
  port : Nat
  username : String
  password : Option String
  private_key : Option String
  passphrase : Option String
  keep_alive : Option Bool
  ready_timeout : Option Nat
  deriving Repr, DecidableEq

/-- `SSHManager::validate_config` from `ssh/mod.rs`. -/
def validate_config (config : SSHConnectionConfig) : Except AppError Unit :=
  if config.hostname.isEmpty then
    .error (.InvalidConfiguration "Hostname cannot be empty")
  else if config.username.isEmpty then
    .error (.InvalidConfiguration "Username cannot be empty")
  else if config.port = 0 then
    .error (.InvalidConfiguration "Port number cannot be 0")
  else if config.password.isNone ∧ config.private_key.isNone then
    .error (.InvalidConfiguration "Either password or private key must be provided")
  else
    .ok ()

/-- A config carrying BOTH a password and a private key, otherwise valid. -/
def configBothCreds : SSHConnectionConfig :=
  { id := "s1", hostname := "h", port := 22, username := "u",
    password := some "p", private_key := some "KEYMATERIAL",
    passphrase := none, keep_alive := none, ready_timeout := none }

/-- C3 counterexample: the claim requires that a config with both a
password and a private key fails validation with `InvalidConfiguration`;
`validate_config` accepts it (the source only rejects when BOTH are
absent), so the claim as stated is false. -/
theorem validate_config_both_creds_accepted :
    validate_config configBothCreds = .ok () ∧
      (∀ msg, validate_config configBothCreds ≠
        .error (.InvalidConfiguration msg)) := by
  refine ⟨rfl, ?_⟩
  intro msg h
  rw [show validate_config configBothCreds = Except.ok () from rfl] at h
  exact Except.noConfusion h

/-- C3 (amended): validation succeeds exactly when hostname and username
are non-empty, the port is non-zero, and AT LEAST one of password or
private key is present; every rejected config fails with
`InvalidConfiguration`. -/
theorem validate_config_characterization (config : SSHConnectionConfig) :
    (validate_config config = .ok () ↔
      (¬ config.hostname.isEmpty ∧ ¬ config.username.isEmpty ∧
        config.port ≠ 0 ∧ (config.password.isSome ∨ config.private_key.isSome))) ∧
    (validate_config config ≠ .ok () →
      ∃ msg, validate_config config = .error (.InvalidConfiguration msg)) := by
  constructor
  · constructor
    · intro hok
      simp only [validate_config] at hok
      split_ifs at hok with h1 h2 h3 h4
      refine ⟨h1, h2, h3, ?_⟩
      cases hp : config.password with
      | some v => exact Or.inl (by simp [hp])
      | none =>
        cases hq : config.private_key with
        | some w => exact Or.inr (by simp [hq])
        | none => exact absurd ⟨by simp [hp], by simp [hq]⟩ h4
    · rintro ⟨h1, h2, h3, h4⟩
      have h5 : ¬ (config.password.isNone = true ∧ config.private_key.isNone = true) := by
        rintro ⟨ha, hb⟩
        rw [Option.isNone_iff_eq_none] at ha hb
        rcases h4 with h | h
        · rw [ha] at h; exact Option.noConfusion (Option.isSome_iff_exists.mp h).choose_spec
        · rw [hb] at h; exact Option.noConfusion (Option.isSome_iff_exists.mp h).choose_spec
      simp only [validate_config]
      rw [if_neg h1, if_neg h2, if_neg h3, if_neg h5]
  · intro h
    simp only [validate_config] at h ⊢
    split_ifs at h ⊢ with h1 h2 h3 h4
    all_goals try exact ⟨_, rfl⟩
    exact absurd rfl h

/-- C3 amended-claim witness at a concrete rejected config. -/
theorem validate_config_characterization_witness :
    ∃ msg,
      validate_config { configBothCreds with hostname := "" } =
        .error (.InvalidConfiguration msg) :=
  (validate_config_characterization { configBothCreds with hostname := "" }).2
    (fun h => Except.noConfusion h)

/-! ## Session registry and engine state (`ssh/mod.rs`) -/

/-- `SSHSession` from `types.rs`. -/
structure SSHSession where
  id : String
  config : SSHConnectionConfig
  connected : Bool
  last_activity : Int
  created_at : Int
  deriving Repr, DecidableEq

/-- `SSHSessionData` from `ssh/mod.rs`; the live `ssh2::Session`,
`ssh2::Channel` and `ssh2::Sftp` handles are opaque `Nat` tokens. -/
structure SSHSessionData where
  session : SSHSession
  ssh_session : Option Nat
  shell : Option Nat
  sftp : Option Nat
  deriving Repr, DecidableEq

/-- The registry `sessions : DashMap<String, SSHSessionData>`, keyed by
session id. -/
abbrev Registry := List (String × SSHSessionData)

/-- Transport-level calls an operation makes against the `ssh2` library:
`Channel::close`, dropping an `Sftp` handle, `Session::disconnect` with a
reason string. -/
inductive Effect where
  | shellClose (handle : Nat)
  | sftpDrop (handle : Nat)
  | sshDisconnect (handle : Nat) (reason : String)
  deriving Repr, DecidableEq

/-- `SSHManager::create_session`: validate the config, then insert a
fresh disconnected entry under `config.id`, replacing any prior entry.
The effect list records every transport call made; the source makes
none. -/
def create_session (reg : Registry) (config : SSHConnectionConfig) (now : Int) :
    Except AppError (SSHSession × Registry × List Effect) :=
  match validate_config config with
  | .error e => .error e
  | .ok () =>
    let session : SSHSession :=
      { id := config.id, config := config, connected := false,
        last_activity := now, created_at := now }
    let data : SSHSessionData :=
      { session := session, ssh_session := none, shell := none, sftp := none }
    .ok (session, setA reg config.id data, [])

/-- The transport calls `SSHManager::disconnect` makes for one entry:
close the shell if any, drop the SFTP handle if any, disconnect the SSH
session if any, in that order. -/
def disconnectEffects (data : SSHSessionData) : List Effect :=
  (match data.shell with
   | some h => [Effect.shellClose h]
   | none => []) ++
  (match data.sftp with
   | some h => [Effect.sftpDrop h]
   | none => []) ++
  (match data.ssh_session with
   | some h => [Effect.sshDisconnect h "Client disconnecting"]
   | none => [])

/-- `SSHManager::disconnect`: takes the shell, SFTP and SSH handles out
of the entry, sets `connected := false`, and never errors; a missing
entry is a silent no-op. -/
def disconnect (reg : Registry) (session_id : String) :
    Except AppError (Registry × List Effect) :=
  match lookupA reg session_id with
  | none => .ok (reg, [])
  | some data =>
    let cleared : SSHSessionData :=
      { session := { data.session with connected := false },
        ssh_session := none, shell := none, sftp := none }
    .ok (setA reg session_id cleared, disconnectEffects data)

/-- `SSHManager::remove_session`: disconnect, then remove the entry. -/
def remove_session (reg : Registry) (session_id : String) :
    Except AppError (Registry × List Effect) :=
  match disconnect reg session_id with
  | .error e => .error e
  | .ok (reg1, effs) => .ok (removeA reg1 session_id, effs)

/-- C6: `disconnect` never errors (unknown ids included); afterwards the
entry, if still present, holds no shell, no SFTP handle and no SSH
handle and has `connected = false`; `remove_session` also never errors
and leaves no entry behind. -/
theorem disconnect_clears_transport (reg : Registry) (session_id : String) :
    (∃ reg1 effs, disconnect reg session_id = .ok (reg1, effs) ∧
      ∀ d, lookupA reg1 session_id = some d →
        d.shell = none ∧ d.sftp = none ∧ d.ssh_session = none ∧
          d.session.connected = false) ∧
    (∃ reg2 effs2, remove_session reg session_id = .ok (reg2, effs2) ∧
      lookupA reg2 session_id = none) := by
  cases hl : lookupA reg session_id with
  | none =>
    constructor
    · refine ⟨reg, [], by simp [disconnect, hl], ?_⟩
      intro d hd
      rw [hl] at hd
      exact Option.noConfusion hd
    · exact ⟨removeA reg session_id, [],
        by simp [remove_session, disconnect, hl],
        lookupA_removeA_self reg session_id⟩
  | some data =>
    constructor
    · refine ⟨setA reg session_id
          { session := { data.session with connected := false },
            ssh_session := none, shell := none, sftp := none },
        disconnectEffects data, by simp [disconnect, hl], ?_⟩
      intro d hd
      rw [lookupA_setA_self] at hd
      cases hd
      exact ⟨rfl, rfl, rfl, rfl⟩
    · refine ⟨removeA (setA reg session_id
          { session := { data.session with connected := false },
            ssh_session := none, shell := none, sftp := none }) session_id,
        disconnectEffects data,
        by simp [remove_session, disconnect, hl], ?_⟩
      exact lookupA_removeA_self _ session_id

/-- C6 witness: the registry `regPrior` below at id `"s1"`. -/
def sessPrior : SSHSessionData :=
  { session :=
      { id := "s1", config := configBothCreds, connected := true,
        last_activity := 10, created_at := 0 },
    ssh_session := some 7, shell := some 8, sftp := some 9 }

/-- A registry holding one connected session `"s1"` with live transport
handles. -/
def regPrior : Registry := [("s1", sessPrior)]

theorem disconnect_clears_transport_witness :
    (∃ reg1 effs, disconnect regPrior "s1" = .ok (reg1, effs) ∧
      ∀ d, lookupA reg1 "s1" = some d →
        d.shell = none ∧ d.sftp = none ∧ d.ssh_session = none ∧
          d.session.connected = false) ∧
    (∃ reg2 effs2, remove_session regPrior "s1" = .ok (reg2, effs2) ∧
      lookupA reg2 "s1" = none) :=
  disconnect_clears_transport regPrior "s1"

/-- C2 counterexample: the prior entry `"s1"` in `regPrior` holds a live
SSH handle; re-inserting the same identifier through `create_session`
succeeds and replaces the entry, yet the effect list is empty — no
transport call, in particular no disconnect of the prior session, is
performed before the replacement is stored. -/
theorem create_session_duplicate_performs_no_disconnect :
    (lookupA regPrior "s1").map (fun d => d.ssh_session) = some (some 7) ∧
    ((create_session regPrior configBothCreds 20).toOption.map
      (fun r => r.2.2)) = some [] ∧
    ((create_session regPrior configBothCreds 20).toOption.bind
      (fun r => lookupA r.2.1 "s1")).map (fun d => d.session.connected) =
        some false := by
  exact ⟨rfl, rfl, rfl⟩

/-- C2 (amended): an insert whose identifier is already present replaces
the prior entry with a fresh disconnected one, but the prior session's
transport is NOT disconnected: `create_session` performs no transport
effect at all. -/
theorem create_session_replaces_prior_entry
    (reg : Registry) (config : SSHConnectionConfig) (now : Int)
    (hv : validate_config config = .ok ()) :
    create_session reg config now =
      .ok ({ id := config.id, config := config, connected := false,
             last_activity := now, created_at := now },
        setA reg config.id
          { session :=
              { id := config.id, config := config, connected := false,
                last_activity := now, created_at := now },
            ssh_session := none, shell := none, sftp := none },
        []) ∧
    lookupA (setA reg config.id
        { session :=
            { id := config.id, config := config, connected := false,
              last_activity := now, created_at := now },
          ssh_session := none, shell := none, sftp := none }) config.id =
      some
        { session :=
            { id := config.id, config := config, connected := false,
              last_activity := now, created_at := now },
          ssh_session := none, shell := none, sftp := none } := by
  refine ⟨?_, lookupA_setA_self _ _ _⟩
  simp [create_session, hv]

theorem create_session_replaces_prior_entry_witness :
    create_session regPrior configBothCreds 20 =
      .ok ({ id := "s1", config := configBothCreds, connected := false,
             last_activity := 20, created_at := 20 },
        setA regPrior "s1"
          { session :=
              { id := "s1", config := configBothCreds, connected := false,
                last_activity := 20, created_at := 20 },
            ssh_session := none, shell := none, sftp := none },
        []) :=
  ((create_session_replaces_prior_entry regPrior configBothCreds 20 rfl).1)

/-! ## UTF-8 lossy decoding (`String::from_utf8_lossy`)

The decoder follows the standard-library algorithm: maximal valid
sequences decode to their code point; each maximal invalid subpart
(including a truncated sequence at the end of the buffer) becomes one
U+FFFD replacement character. -/

/-- U+FFFD REPLACEMENT CHARACTER. -/
def replacementChar : Char := Char.ofNat 0xFFFD

/-- Is `b` a UTF-8 continuation byte (`0x80..=0xBF`)? -/
def isCont (b : Nat) : Bool := decide (0x80 ≤ b ∧ b ≤ 0xBF)

/-- Valid range of the second byte of a multi-byte sequence headed by
`b0` (the `E0/ED/F0/F4` special cases of the UTF-8 validation table). -/
def validSecond (b0 c : Nat) : Bool :=
  if b0 = 0xE0 then decide (0xA0 ≤ c ∧ c ≤ 0xBF)
  else if b0 = 0xED then decide (0x80 ≤ c ∧ c ≤ 0x9F)
  else if b0 = 0xF0 then decide (0x90 ≤ c ∧ c ≤ 0xBF)
  else if b0 = 0xF4 then decide (0x80 ≤ c ∧ c ≤ 0x8F)
  else decide (0x80 ≤ c ∧ c ≤ 0xBF)

/-- Decode a byte list as UTF-8, replacing invalid subparts by U+FFFD. -/
def utf8LossyChars : List Nat → List Char
  | [] => []
  | b :: rest =>
    if b < 0x80 then Char.ofNat b :: utf8LossyChars rest
    else if 0xC2 ≤ b ∧ b ≤ 0xDF then
      match rest with
      | [] => [replacementChar]
      | c1 :: rest1 =>
        if isCont c1 then
          Char.ofNat ((b - 0xC0) * 0x40 + (c1 - 0x80)) :: utf8LossyChars rest1
        else replacementChar :: utf8LossyChars (c1 :: rest1)
    else if 0xE0 ≤ b ∧ b ≤ 0xEF then
      match rest with
      | [] => [replacementChar]
      | c1 :: rest1 =>
        if validSecond b c1 then
          match rest1 with
          | [] => [replacementChar]
          | c2 :: rest2 =>
            if isCont c2 then
              Char.ofNat ((b - 0xE0) * 0x1000 + (c1 - 0x80) * 0x40 + (c2 - 0x80)) ::
                utf8LossyChars rest2
            else replacementChar :: utf8LossyChars (c2 :: rest2)
        else replacementChar :: utf8LossyChars (c1 :: rest1)
    else if 0xF0 ≤ b ∧ b ≤ 0xF4 then
      match rest with
      | [] => [replacementChar]
      | c1 :: rest1 =>
        if validSecond b c1 then
          match rest1 with
          | [] => [replacementChar]
          | c2 :: rest2 =>
            if isCont c2 then
              match rest2 with
              | [] => [replacementChar]
              | c3 :: rest3 =>
                if isCont c3 then
                  Char.ofNat ((b - 0xF0) * 0x40000 + (c1 - 0x80) * 0x1000 +
                    (c2 - 0x80) * 0x40 + (c3 - 0x80)) :: utf8LossyChars rest3
                else replacementChar :: utf8LossyChars (c3 :: rest3)
            else replacementChar :: utf8LossyChars (c2 :: rest2)
        else replacementChar :: utf8LossyChars (c1 :: rest1)
    else replacementChar :: utf8LossyChars rest

/-- `String::from_utf8_lossy` over a byte list. -/
def from_utf8_lossy (bs : List Nat) : String := String.mk (utf8LossyChars bs)

example : from_utf8_lossy [104, 105] = "hi" := by decide
example : from_utf8_lossy [0xC3, 0xA9] = "é" := by decide
example : from_utf8_lossy [0xE4, 0xBD, 0xA0] = "你" := by decide
example : from_utf8_lossy [0xFF, 0x61] = "�a" := by decide
example : from_utf8_lossy [0xE4, 0xBD] = "�" := by decide

/-! ## Shell channel operations (`ssh/mod.rs`) -/

/-- Overwrite the entry's `last_activity` under its write lock
(`data.session.last_activity = Utc::now()` in the source). -/
def touch (reg : Registry) (session_id : String) (data : SSHSessionData)
    (now : Int) : Registry :=
  setA reg session_id
    { data with session := { data.session with last_activity := now } }

theorem lookup_touch_self (reg : Registry) (session_id : String)
    (data : SSHSessionData) (now : Int) :
    lookupA (touch reg session_id data now) session_id =
      some { data with session := { data.session with last_activity := now } } :=
  lookupA_setA_self _ _ _

/-- The outcome of the non-blocking `shell.read(&mut buffer)` call in
`read_from_shell`: `Ok(n)` delivering the bytes read (`n = 0` is EOF),
`ErrorKind::WouldBlock`, or any other I/O error. -/
inductive ShellRead where
  | bytes (bs : List Nat)
  | wouldBlock
  | ioError (msg : String)

/-- `SSHManager::read_from_shell`: the pair is (operation result, registry
after the call). -/
def read_from_shell (reg : Registry) (session_id : String) (r : ShellRead)
    (now : Int) : Except AppError (Option String) × Registry :=
  match lookupA reg session_id with
  | none => (.error (.SessionNotFound session_id), reg)
  | some data =>
    match data.shell with
    | none => (.ok none, reg)
    | some _ =>
      match r with
      | .bytes [] => (.ok none, reg)
      | .bytes bs => (.ok (some (from_utf8_lossy bs)), touch reg session_id data now)
      | .wouldBlock => (.ok none, reg)
      | .ioError e =>
        (.error (.SSHConnectionFailed ("Failed to read from shell: " ++ e)), reg)

/-- C7: with an open shell, `read_from_shell` returns `Some` of the
UTF-8-lossy decoding of the bytes read (at most the 4096-byte buffer)
when data is available, `None` — not an error — on would-block and on a
zero-byte EOF read, and fails `SSHConnectionFailed` exactly on any other
I/O error. -/
theorem read_from_shell_spec (reg : Registry) (session_id : String)
    (data : SSHSessionData) (r : ShellRead) (now : Int)
    (hl : lookupA reg session_id = some data) (hs : data.shell.isSome)
    (hbuf : ∀ bs, r = .bytes bs → bs.length ≤ 4096) :
    (∀ bs, r = .bytes bs → bs ≠ [] →
      read_from_shell reg session_id r now =
        (.ok (some (from_utf8_lossy bs)), touch reg session_id data now)) ∧
    (r = .bytes [] → read_from_shell reg session_id r now = (.ok none, reg)) ∧
    (r = .wouldBlock → read_from_shell reg session_id r now = (.ok none, reg)) ∧
    (∀ msg, r = .ioError msg →
      read_from_shell reg session_id r now =
        (.error (.SSHConnectionFailed ("Failed to read from shell: " ++ msg)),
          reg)) := by
  obtain ⟨sh, hsh⟩ := Option.isSome_iff_exists.mp hs
  refine ⟨?_, ?_, ?_, ?_⟩
  · rintro bs rfl hne
    cases bs with
    | nil => exact absurd rfl hne
    | cons b t => simp [read_from_shell, hl, hsh]
  · rintro rfl
    simp [read_from_shell, hl, hsh]
  · rintro rfl
    simp [read_from_shell, hl, hsh]
  · rintro msg rfl
    simp [read_from_shell, hl, hsh]

/-- C7 witness: a concrete data read on session `"s1"` of `regPrior`. -/
theorem read_from_shell_spec_witness :
    read_from_shell regPrior "s1" (.bytes [104, 105]) 30 =
      (.ok (some (from_utf8_lossy [104, 105])), touch regPrior "s1" sessPrior 30) :=
  (read_from_shell_spec regPrior "s1" sessPrior (.bytes [104, 105]) 30 rfl rfl
    (by rintro bs ⟨rfl⟩; decide)).1 [104, 105] rfl (by decide)

/-- Outcome of the TCP + handshake + authentication pipeline inside
`SSHManager::connect`, step by step. -/
inductive ConnectOutcome where
  | tcpError (msg : String)
  | sessionError (msg : String)
  | handshakeError (msg : String)
  | authError (e : AppError)
  | authenticated (handle : Nat)

/-- `SSHManager::connect`: on success stores the SSH handle and sets
`connected := true` and `last_activity := now`. -/
def connect (reg : Registry) (session_id : String) (oc : ConnectOutcome)
    (now : Int) : Except AppError Unit × Registry :=
  match lookupA reg session_id with
  | none => (.error (.SessionNotFound session_id), reg)
  | some data =>
    match oc with
    | .tcpError m =>
      (.error (.SSHConnectionFailed ("TCP connection failed: " ++ m)), reg)
    | .sessionError m =>
      (.error (.SSHConnectionFailed ("SSH session creation failed: " ++ m)), reg)
    | .handshakeError m =>
      (.error (.SSHConnectionFailed ("SSH handshake failed: " ++ m)), reg)
    | .authError e => (.error e, reg)
    | .authenticated h =>
      (.ok (), setA reg session_id
        { data with
          ssh_session := some h
          session := { data.session with connected := true, last_activity := now } })

/-- Outcome of channel creation, PTY request and shell start inside
`SSHManager::create_shell`. -/
inductive ChannelOutcome where
  | channelError (msg : String)
  | ptyError (msg : String)
  | shellError (msg : String)
  | opened (handle : Nat)

/-- `SSHManager::create_shell`. -/
def create_shell (reg : Registry) (session_id : String) (cols rows : Nat)
    (oc : ChannelOutcome) (now : Int) : Except AppError Unit × Registry :=
  match lookupA reg session_id with
  | none => (.error (.SessionNotFound session_id), reg)
  | some data =>
    match data.ssh_session with
    | none => (.error (.SSHConnectionFailed "No SSH session available"), reg)
    | some _ =>
      match oc with
      | .channelError m =>
        (.error (.SSHConnectionFailed ("Failed to create channel: " ++ m)), reg)
      | .ptyError m =>
        (.error (.SSHConnectionFailed ("Failed to request PTY: " ++ m)), reg)
      | .shellError m =>
        (.error (.SSHConnectionFailed ("Failed to start shell: " ++ m)), reg)
      | .opened h =>
        (.ok (), setA reg session_id
          { data with
            shell := some h
            session := { data.session with last_activity := now } })

/-- `SSHManager::write_to_shell`; `writeErr` is the outcome of the
underlying `shell.write` call.  A session without a shell succeeds
without doing anything. -/
def write_to_shell (reg : Registry) (session_id : String) (input : String)
    (writeErr : Option String) (now : Int) : Except AppError Unit × Registry :=
  match lookupA reg session_id with
  | none => (.error (.SessionNotFound session_id), reg)
  | some data =>
    match data.shell with
    | none => (.ok (), reg)
    | some _ =>
      match writeErr with
      | some e =>
        (.error (.SSHConnectionFailed ("Failed to write to shell: " ++ e)), reg)
      | none => (.ok (), touch reg session_id data now)

/-- `SSHManager::resize_shell`; `resizeErr` is the outcome of the
underlying `request_pty_size` call. -/
def resize_shell (reg : Registry) (session_id : String) (cols rows : Nat)
    (resizeErr : Option String) (now : Int) : Except AppError Unit × Registry :=
  match lookupA reg session_id with
  | none => (.error (.SessionNotFound session_id), reg)
  | some data =>
    match data.shell with
    | none => (.ok (), reg)
    | some _ =>
      match resizeErr with
      | some e =>
        (.error (.SSHConnectionFailed ("Failed to resize shell: " ++ e)), reg)
      | none => (.ok (), touch reg session_id data now)

/-! ## SFTP operations (`ssh/mod.rs`) -/

/-- The stat record `ssh2::Sftp::readdir` yields per entry. -/
structure FileStat where
  size : Option Nat
  is_dir : Bool
  mtime : Option Nat
  perm : Option Nat
  deriving Repr, DecidableEq

/-- `SftpFileInfo` from `types.rs`. -/
structure SftpFileInfo where
  name : String
  path : String
  size : Nat
  is_directory : Bool
  modified : Option Int
  permissions : Option String
  deriving Repr, DecidableEq

/-- `Path::file_name` as used on the entries: the final path component,
`none` when there is none or it is `.` or `..`. -/
def pathFileName (p : String) : Option String :=
  match (p.splitOn "/").filter (fun s => ¬ s.isEmpty) with
  | [] => none
  | comps =>
    match comps.getLast? with
    | some last => if last = ".." ∨ last = "." then none else some last
    | none => none

/-- `format!("{:o}", p)`: octal rendering. -/
def octalString (n : Nat) : String := String.mk (Nat.toDigits 8 n)

/-- The per-entry conversion in `SSHManager::list_directory`. -/
def entryToInfo (p : String) (st : FileStat) : SftpFileInfo :=
  { name := (pathFileName p).getD "unknown",
    path := p,
    size := st.size.getD 0,
    is_directory := st.is_dir,
    modified := st.mtime.map (fun t => (t : Int)),
    permissions := st.perm.map octalString }

/-- The lazy SFTP-channel creation shared by `list_directory`,
`download_file` and `upload_file`; `sftpRes` is the outcome of
`ssh_session.sftp()` when it is invoked. -/
def ensure_sftp (data : SSHSessionData) (sftpRes : Except String Nat) :
    Except AppError SSHSessionData :=
  match data.sftp with
  | some _ => .ok data
  | none =>
    match data.ssh_session with
    | none => .error (.SSHConnectionFailed "No SSH session available for SFTP")
    | some _ =>
      match sftpRes with
      | .error e =>
        .error (.SSHConnectionFailed ("Failed to create SFTP session: " ++ e))
      | .ok h => .ok { data with sftp := some h }

/-- `SSHManager::list_directory`. -/
def list_directory (reg : Registry) (session_id : String) (path : String)
    (sftpRes : Except String Nat)
    (readdirRes : Except String (List (String × FileStat))) (now : Int) :
    Except AppError (List SftpFileInfo) × Registry :=
  match lookupA reg session_id with
  | none => (.error (.SessionNotFound session_id), reg)
  | some data =>
    match ensure_sftp data sftpRes with
    | .error e => (.error e, reg)
    | .ok data1 =>
      match readdirRes with
      | .error e =>
        (.error (.FileOperationFailed ("Failed to list directory: " ++ e)),
          setA reg session_id data1)
      | .ok entries =>
        (.ok (entries.map (fun pr => entryToInfo pr.1 pr.2)),
          touch reg session_id data1 now)

/-- `SSHManager::download_file`; `openRes` and `readRes` are the outcomes
of `sftp.open` and `read_to_end`. -/
def download_file (reg : Registry) (session_id : String) (remote_path : String)
    (sftpRes : Except String Nat) (openRes : Except String Unit)
    (readRes : Except String (List Nat)) (now : Int) :
    Except AppError (List Nat) × Registry :=
  match lookupA reg session_id with
  | none => (.error (.SessionNotFound session_id), reg)
  | some data =>
    match ensure_sftp data sftpRes with
    | .error e => (.error e, reg)
    | .ok data1 =>
      match openRes with
      | .error e =>
        (.error (.FileOperationFailed ("Failed to open remote file: " ++ e)),
          setA reg session_id data1)
      | .ok () =>
        match readRes with
        | .error e =>
          (.error (.FileOperationFailed ("Failed to read file: " ++ e)),
            setA reg session_id data1)
        | .ok contents => (.ok contents, touch reg session_id data1 now)

/-- `SSHManager::upload_file`; `createRes` and `writeRes` are the
outcomes of `sftp.create` and `write_all`. -/
def upload_file (reg : Registry) (session_id : String) (remote_path : String)
    (contents : List Nat) (sftpRes : Except String Nat)
    (createRes : Except String Unit) (writeRes : Except String Unit)
    (now : Int) : Except AppError Unit × Registry :=
  match lookupA reg session_id with
  | none => (.error (.SessionNotFound session_id), reg)
  | some data =>
    match ensure_sftp data sftpRes with
    | .error e => (.error e, reg)
    | .ok data1 =>
      match createRes with
      | .error e =>
        (.error (.FileOperationFailed ("Failed to create remote file: " ++ e)),
          setA reg session_id data1)
      | .ok () =>
        match writeRes with
        | .error e =>
          (.error (.FileOperationFailed ("Failed to write file: " ++ e)),
            setA reg session_id data1)
        | .ok () => (.ok (), touch reg session_id data1 now)

/-! ## Activity stamping (C8) -/

/-- A registry holding a connected session `"s2"` that has no open
shell. -/
def regNoShell : Registry :=
  [("s2",
    { session :=
        { id := "s2", config := configBothCreds, connected := true,
          last_activity := 0, created_at := 0 },
      ssh_session := some 3, shell := none, sftp := none })]

/-- C8 counterexample: `write_to_shell` on a session whose shell is not
open completes successfully (at clock 100) yet leaves `last_activity`
at 0 — so not every successful engine operation advances the activity
stamp. -/
theorem write_to_shell_no_shell_keeps_activity :
    write_to_shell regNoShell "s2" "ls" none 100 = (.ok (), regNoShell) ∧
      (lookupA regNoShell "s2").map (fun d => d.session.last_activity) =
        some 0 :=
  ⟨rfl, rfl⟩

theorem write_to_shell_activity (reg reg1 : Registry) (session_id input : String)
    (writeErr : Option String) (now : Int) (u : Unit) (d d1 : SSHSessionData)
    (h : write_to_shell reg session_id input writeErr now = (.ok u, reg1))
    (hd : lookupA reg session_id = some d)
    (hd1 : lookupA reg1 session_id = some d1) :
    d1.session.last_activity = now ∨
      d1.session.last_activity = d.session.last_activity := by
  simp only [write_to_shell, hd] at h
  cases hsh : d.shell with
  | none =>
    simp only [hsh] at h
    have h2 : reg = reg1 := congrArg Prod.snd h
    right
    rw [← h2, hd] at hd1
    cases hd1
    rfl
  | some sh =>
    cases writeErr with
    | some e =>
      simp only [hsh] at h
      exact Except.noConfusion (congrArg Prod.fst h)
    | none =>
      simp only [hsh] at h
      have h2 : touch reg session_id d now = reg1 := congrArg Prod.snd h
      left
      rw [← h2, lookup_touch_self] at hd1
      cases hd1
      rfl

theorem resize_shell_activity (reg reg1 : Registry) (session_id : String)
    (cols rows : Nat) (resizeErr : Option String) (now : Int) (u : Unit)
    (d d1 : SSHSessionData)
    (h : resize_shell reg session_id cols rows resizeErr now = (.ok u, reg1))
    (hd : lookupA reg session_id = some d)
    (hd1 : lookupA reg1 session_id = some d1) :
    d1.session.last_activity = now ∨
      d1.session.last_activity = d.session.last_activity := by
  simp only [resize_shell, hd] at h
  cases hsh : d.shell with
  | none =>
    simp only [hsh] at h
    have h2 : reg = reg1 := congrArg Prod.snd h
    right
    rw [← h2, hd] at hd1
    cases hd1
    rfl
  | some sh =>
    cases resizeErr with
    | some e =>
      simp only [hsh] at h
      exact Except.noConfusion (congrArg Prod.fst h)
    | none =>
      simp only [hsh] at h
      have h2 : touch reg session_id d now = reg1 := congrArg Prod.snd h
      left
      rw [← h2, lookup_touch_self] at hd1
      cases hd1
      rfl

theorem connect_activity (reg reg1 : Registry) (session_id : String)
    (oc : ConnectOutcome) (now : Int) (u : Unit) (d d1 : SSHSessionData)
    (h : connect reg session_id oc now = (.ok u, reg1))
    (hd : lookupA reg session_id = some d)
    (hd1 : lookupA reg1 session_id = some d1) :
    d1.session.last_activity = now ∨
      d1.session.last_activity = d.session.last_activity := by
  simp only [connect, hd] at h
  cases oc with
  | tcpError m => exact Except.noConfusion (congrArg Prod.fst h)
  | sessionError m => exact Except.noConfusion (congrArg Prod.fst h)
  | handshakeError m => exact Except.noConfusion (congrArg Prod.fst h)
  | authError e => exact Except.noConfusion (congrArg Prod.fst h)
  | authenticated hh =>
    have h2 : setA reg session_id
        { d with
          ssh_session := some hh
          session := { d.session with connected := true, last_activity := now } } =
          reg1 := congrArg Prod.snd h
    left
    rw [← h2, lookupA_setA_self] at hd1
    cases hd1
    rfl

theorem create_shell_activity (reg reg1 : Registry) (session_id : String)
    (cols rows : Nat) (oc : ChannelOutcome) (now : Int) (u : Unit)
    (d d1 : SSHSessionData)
    (h : create_shell reg session_id cols rows oc now = (.ok u, reg1))
    (hd : lookupA reg session_id = some d)
    (hd1 : lookupA reg1 session_id = some d1) :
    d1.session.last_activity = now ∨
      d1.session.last_activity = d.session.last_activity := by
  simp only [create_shell, hd] at h
  cases hss : d.ssh_session with
  | none =>
    simp only [hss] at h
    exact Except.noConfusion (congrArg Prod.fst h)
  | some s =>
    simp only [hss] at h
    cases oc with
    | channelError m => exact Except.noConfusion (congrArg Prod.fst h)
    | ptyError m => exact Except.noConfusion (congrArg Prod.fst h)
    | shellError m => exact Except.noConfusion (congrArg Prod.fst h)
    | opened hh =>
      have h2 : setA reg session_id
          { session := { d.session with last_activity := now },
            ssh_session := some s, shell := some hh, sftp := d.sftp } = reg1 :=
        congrArg Prod.snd h
      left
      rw [← h2, lookupA_setA_self] at hd1
      cases hd1
      rfl

theorem read_from_shell_activity (reg reg1 : Registry) (session_id : String)
    (r : ShellRead) (now : Int) (v : Option String) (d d1 : SSHSessionData)
    (h : read_from_shell reg session_id r now = (.ok v, reg1))
    (hd : lookupA reg session_id = some d)
    (hd1 : lookupA reg1 session_id = some d1) :
    d1.session.last_activity = now ∨
      d1.session.last_activity = d.session.last_activity := by
  simp only [read_from_shell, hd] at h
  cases hsh : d.shell with
  | none =>
    simp only [hsh] at h
    have h2 : reg = reg1 := congrArg Prod.snd h
    right
    rw [← h2, hd] at hd1
    cases hd1
    rfl
  | some sh =>
    simp only [hsh] at h
    cases r with
    | wouldBlock =>
      have h2 : reg = reg1 := congrArg Prod.snd h
      right
      rw [← h2, hd] at hd1
      cases hd1
      rfl
    | ioError m => exact Except.noConfusion (congrArg Prod.fst h)
    | bytes bs =>
      cases bs with
      | nil =>
        have h2 : reg = reg1 := congrArg Prod.snd h
        right
        rw [← h2, hd] at hd1
        cases hd1
        rfl
      | cons b t =>
        have h2 : touch reg session_id d now = reg1 := congrArg Prod.snd h
        left
        rw [← h2, lookup_touch_self] at hd1
        cases hd1
        rfl

theorem list_directory_activity (reg reg1 : Registry) (session_id path : String)
    (sftpRes : Except String Nat)
    (readdirRes : Except String (List (String × FileStat))) (now : Int)
    (v : List SftpFileInfo) (d d1 : SSHSessionData)
    (h : list_directory reg session_id path sftpRes readdirRes now = (.ok v, reg1))
    (hd : lookupA reg session_id = some d)
    (hd1 : lookupA reg1 session_id = some d1) :
    d1.session.last_activity = now ∨
      d1.session.last_activity = d.session.last_activity := by
  simp only [list_directory, hd] at h
  cases he : ensure_sftp d sftpRes with
  | error e =>
    simp only [he] at h
    exact Except.noConfusion (congrArg Prod.fst h)
  | ok data1 =>
    simp only [he] at h
    cases readdirRes with
    | error e => exact Except.noConfusion (congrArg Prod.fst h)
    | ok entries =>
      have h2 : touch reg session_id data1 now = reg1 := congrArg Prod.snd h
      left
      rw [← h2, lookup_touch_self] at hd1
      cases hd1
      rfl

theorem download_file_activity (reg reg1 : Registry)
    (session_id remote_path : String) (sftpRes : Except String Nat)
    (openRes : Except String Unit) (readRes : Except String (List Nat))
    (now : Int) (v : List Nat) (d d1 : SSHSessionData)
    (h : download_file reg session_id remote_path sftpRes openRes readRes now =
      (.ok v, reg1))
    (hd : lookupA reg session_id = some d)
    (hd1 : lookupA reg1 session_id = some d1) :
    d1.session.last_activity = now ∨
      d1.session.last_activity = d.session.last_activity := by
  simp only [download_file, hd] at h
  cases he : ensure_sftp d sftpRes with
  | error e =>
    simp only [he] at h
    exact Except.noConfusion (congrArg Prod.fst h)
  | ok data1 =>
    simp only [he] at h
    cases openRes with
    | error e => exact Except.noConfusion (congrArg Prod.fst h)
    | ok uu =>
      cases readRes with
      | error e => exact Except.noConfusion (congrArg Prod.fst h)
      | ok contents =>
        have h2 : touch reg session_id data1 now = reg1 := congrArg Prod.snd h
        left
        rw [← h2, lookup_touch_self] at hd1
        cases hd1
        rfl

theorem upload_file_activity (reg reg1 : Registry)
    (session_id remote_path : String) (contents : List Nat)
    (sftpRes : Except String Nat) (createRes : Except String Unit)
    (writeRes : Except String Unit) (now : Int) (u : Unit)
    (d d1 : SSHSessionData)
    (h : upload_file reg session_id remote_path contents sftpRes createRes
      writeRes now = (.ok u, reg1))
    (hd : lookupA reg session_id = some d)
    (hd1 : lookupA reg1 session_id = some d1) :
    d1.session.last_activity = now ∨
      d1.session.last_activity = d.session.last_activity := by
  simp only [upload_file, hd] at h
  cases he : ensure_sftp d sftpRes with
  | error e =>
    simp only [he] at h
    exact Except.noConfusion (congrArg Prod.fst h)
  | ok data1 =>
    simp only [he] at h
    cases createRes with
    | error e => exact Except.noConfusion (congrArg Prod.fst h)
    | ok u1 =>
      cases writeRes with
      | error e => exact Except.noConfusion (congrArg Prod.fst h)
      | ok u2 =>
        have h2 : touch reg session_id data1 now = reg1 := congrArg Prod.snd h
        left
        rw [← h2, lookup_touch_self] at hd1
        cases hd1
        rfl

/-- One engine invocation: its target session, the oracle outcomes of
the library calls it performs, and the wall-clock value `Utc::now()`
reads during it. -/
inductive EngineOp where
  | opConnect (session_id : String) (oc : ConnectOutcome) (now : Int)
  | opCreateShell (session_id : String) (cols rows : Nat) (oc : ChannelOutcome)
      (now : Int)
  | opWrite (session_id input : String) (writeErr : Option String) (now : Int)
  | opRead (session_id : String) (r : ShellRead) (now : Int)
  | opResize (session_id : String) (cols rows : Nat) (resizeErr : Option String)
      (now : Int)
  | opListDir (session_id path : String) (sftpRes : Except String Nat)
      (readdirRes : Except String (List (String × FileStat))) (now : Int)
  | opDownload (session_id remote_path : String) (sftpRes : Except String Nat)
      (openRes : Except String Unit) (readRes : Except String (List Nat))
      (now : Int)
  | opUpload (session_id remote_path : String) (contents : List Nat)
      (sftpRes : Except String Nat) (createRes : Except String Unit)
      (writeRes : Except String Unit) (now : Int)

/-- The session an operation addresses. -/
def EngineOp.sessionId : EngineOp → String
  | .opConnect i _ _ => i
  | .opCreateShell i _ _ _ _ => i
  | .opWrite i _ _ _ => i
  | .opRead i _ _ => i
  | .opResize i _ _ _ _ => i
  | .opListDir i _ _ _ _ => i
  | .opDownload i _ _ _ _ _ => i
  | .opUpload i _ _ _ _ _ _ => i

/-- The wall-clock instant of an operation. -/
def EngineOp.time : EngineOp → Int
  | .opConnect _ _ n => n
  | .opCreateShell _ _ _ _ n => n
  | .opWrite _ _ _ n => n
  | .opRead _ _ n => n
  | .opResize _ _ _ _ n => n
  | .opListDir _ _ _ _ n => n
  | .opDownload _ _ _ _ _ n => n
  | .opUpload _ _ _ _ _ _ n => n

/-- Dispatch an engine operation, discarding its result value. -/
def applyOp (reg : Registry) : EngineOp → Except AppError Unit × Registry
  | .opConnect i oc n => connect reg i oc n
  | .opCreateShell i c r oc n => create_shell reg i c r oc n
  | .opWrite i inp we n => write_to_shell reg i inp we n
  | .opRead i r n =>
    match read_from_shell reg i r n with
    | (res, reg2) => (res.map (fun _ => ()), reg2)
  | .opResize i c r re n => resize_shell reg i c r re n
  | .opListDir i p sr rr n =>
    match list_directory reg i p sr rr n with
    | (res, reg2) => (res.map (fun _ => ()), reg2)
  | .opDownload i p sr orr rr n =>
    match download_file reg i p sr orr rr n with
    | (res, reg2) => (res.map (fun _ => ()), reg2)
  | .opUpload i p cs sr cr wr n => upload_file reg i p cs sr cr wr n

/-- C8 (amended): an engine operation that completes successfully either
stamps the entry's `last_activity` to the operation's clock or — when it
succeeds without touching the channel, as `write_to_shell` and
`resize_shell` do on a session with no shell and `read_from_shell` does
without data — leaves it unchanged; hence, whenever the clock is not
behind the stored value, the observed `last_activity` values are
non-decreasing. -/
theorem engine_activity_monotone (reg reg1 : Registry) (op : EngineOp) (u : Unit)
    (d d1 : SSHSessionData)
    (h : applyOp reg op = (.ok u, reg1))
    (hd : lookupA reg op.sessionId = some d)
    (hd1 : lookupA reg1 op.sessionId = some d1) :
    (d1.session.last_activity = op.time ∨
      d1.session.last_activity = d.session.last_activity) ∧
    (d.session.last_activity ≤ op.time →
      d.session.last_activity ≤ d1.session.last_activity) := by
  have main : d1.session.last_activity = op.time ∨
      d1.session.last_activity = d.session.last_activity := by
    cases op with
    | opConnect i oc n =>
      exact connect_activity reg reg1 i oc n u d d1 h hd hd1
    | opCreateShell i c r oc n =>
      exact create_shell_activity reg reg1 i c r oc n u d d1 h hd hd1
    | opWrite i inp we n =>
      exact write_to_shell_activity reg reg1 i inp we n u d d1 h hd hd1
    | opResize i c r re n =>
      exact resize_shell_activity reg reg1 i c r re n u d d1 h hd hd1
    | opUpload i p cs sr cr wr n =>
      exact upload_file_activity reg reg1 i p cs sr cr wr n u d d1 h hd hd1
    | opRead i r n =>
      simp only [applyOp] at h
      rcases hp : read_from_shell reg i r n with ⟨pres, preg⟩
      rw [hp] at h
      cases pres with
      | error e => exact Except.noConfusion (congrArg Prod.fst h)
      | ok v =>
        have h2 : preg = reg1 := congrArg Prod.snd h
        rw [h2] at hp
        exact read_from_shell_activity reg reg1 i r n v d d1 hp hd hd1
    | opListDir i p sr rr n =>
      simp only [applyOp] at h
      rcases hp : list_directory reg i p sr rr n with ⟨pres, preg⟩
      rw [hp] at h
      cases pres with
      | error e => exact Except.noConfusion (congrArg Prod.fst h)
      | ok v =>
        have h2 : preg = reg1 := congrArg Prod.snd h
        rw [h2] at hp
        exact list_directory_activity reg reg1 i p sr rr n v d d1 hp hd hd1
    | opDownload i p sr orr rr n =>
      simp only [applyOp] at h
      rcases hp : download_file reg i p sr orr rr n with ⟨pres, preg⟩
      rw [hp] at h
      cases pres with
      | error e => exact Except.noConfusion (congrArg Prod.fst h)
      | ok v =>
        have h2 : preg = reg1 := congrArg Prod.snd h
        rw [h2] at hp
        exact download_file_activity reg reg1 i p sr orr rr n v d d1 hp hd hd1
  refine ⟨main, fun hle => ?_⟩
  rcases main with h1 | h1
  · rw [h1]; exact hle
  · rw [h1]

/-- The entry of `regPrior` after a successful write at clock 30. -/
def sessPriorTouched : SSHSessionData :=
  { sessPrior with session := { sessPrior.session with last_activity := 30 } }

/-- C8 amended-claim witness: a concrete successful `write_to_shell`. -/
theorem engine_activity_monotone_witness :
    ((sessPriorTouched.session.last_activity = (30 : Int) ∨
        sessPriorTouched.session.last_activity = sessPrior.session.last_activity) ∧
      (sessPrior.session.last_activity ≤ (30 : Int) →
        sessPrior.session.last_activity ≤ sessPriorTouched.session.last_activity)) :=
  engine_activity_monotone regPrior (touch regPrior "s1" sessPrior 30)
    (.opWrite "s1" "x" none 30) () sessPrior sessPriorTouched rfl rfl rfl

/-! ## Transfer coordinator (`transfer.rs`) -/

/-- `TransferStatus` from `types.rs`. -/
inductive TransferStatus where
  | Pending
  | InProgress
  | Completed
  | Failed
  | Cancelled
  deriving Repr, DecidableEq

/-- `TransferDirection` from `types.rs`. -/
inductive TransferDirection where
  | Upload
  | Download
  deriving Repr, DecidableEq

/-- `FileTransfer` from `types.rs`. -/
structure FileTransfer where
  id : String
  session_id : String
  name : String
  remote_path : String
  local_path : Option String
  size : Nat
  transferred : Nat
  status : TransferStatus
  direction : TransferDirection
  start_time : Int
  end_time : Option Int
  error : Option String
  deriving Repr, DecidableEq

/-- The admission-relevant state of `TransferManager` (the SSH-manager
handle drives the spawned tasks, which are outside the synchronous
admission path). -/
structure TransferManager where
  transfers : List (String × FileTransfer)
  max_concurrent_transfers : Nat
  active_transfers : Nat
  deriving Repr, DecidableEq

/-- `TransferManager::new`: the concurrency bound defaults to 3. -/
def TransferManager.new : TransferManager :=
  { transfers := [], max_concurrent_transfers := 3, active_transfers := 0 }

/-- `TransferManager::start_upload`, synchronous part: the admission
check, the pending record, and the counter increment.  The fresh UUID
and the clock are passed in as `transfer_id` and `now`. -/
def start_upload (m : TransferManager) (session_id remote_path name : String)
    (content : List Nat) (transfer_id : String) (now : Int) :
    Except AppError (String × TransferManager) :=
  if m.active_transfers ≥ m.max_concurrent_transfers then
    .error (.FileOperationFailed "Too many concurrent transfers")
  else
    let transfer : FileTransfer :=
      { id := transfer_id, session_id := session_id, name := name,
        remote_path := remote_path, local_path := none,
        size := content.length, transferred := 0,
        status := .Pending, direction := .Upload,
        start_time := now, end_time := none, error := none }
    .ok (transfer_id,
      { m with
        transfers := setA m.transfers transfer_id transfer
        active_transfers := m.active_transfers + 1 })

/-- `TransferManager::start_download`, synchronous part. -/
def start_download (m : TransferManager) (session_id remote_path : String)
    (name : Option String) (transfer_id : String) (now : Int) :
    Except AppError (String × TransferManager) :=
  if m.active_transfers ≥ m.max_concurrent_transfers then
    .error (.FileOperationFailed "Too many concurrent transfers")
  else
    let display_name := name.getD ((remote_path.splitOn "/").getLast?.getD "download")
    let transfer : FileTransfer :=
      { id := transfer_id, session_id := session_id, name := display_name,
        remote_path := remote_path, local_path := none,
        size := 0, transferred := 0,
        status := .Pending, direction := .Download,
        start_time := now, end_time := none, error := none }
    .ok (transfer_id,
      { m with
        transfers := setA m.transfers transfer_id transfer
        active_transfers := m.active_transfers + 1 })

/-- A manager whose in-progress count has reached the default bound. -/
def tmFull : TransferManager :=
  { transfers := [], max_concurrent_transfers := 3, active_transfers := 3 }

/-- C1 counterexample: at the bound, `start_upload` does fail
synchronously — but with `FileOperationFailed`, whose wire code is
`FILE_OPERATION_FAILED`, not `RESOURCE_EXHAUSTED` as the claim
states. -/
theorem start_upload_at_cap_not_resource_exhausted :
    start_upload tmFull "s1" "/tmp/f" "f" [1, 2] "t1" 0 =
      .error (.FileOperationFailed "Too many concurrent transfers") ∧
    (AppError.FileOperationFailed "Too many concurrent transfers").error_code =
      "FILE_OPERATION_FAILED" ∧
    ("FILE_OPERATION_FAILED" : String) ≠ "RESOURCE_EXHAUSTED" := by
  refine ⟨rfl, rfl, ?_⟩
  decide

/-- C1 (amended): when the in-progress count has reached the bound
(default 3), both `start_upload` and `start_download` fail synchronously
with `FileOperationFailed "Too many concurrent transfers"` — error code
`FILE_OPERATION_FAILED`, not `RESOURCE_EXHAUSTED`. -/
theorem start_transfer_admission (m : TransferManager)
    (sid rp nm : String) (content : List Nat) (nameOpt : Option String)
    (tid : String) (now : Int)
    (hfull : m.active_transfers ≥ m.max_concurrent_transfers) :
    TransferManager.new.max_concurrent_transfers = 3 ∧
    start_upload m sid rp nm content tid now =
      .error (.FileOperationFailed "Too many concurrent transfers") ∧
    start_download m sid rp nameOpt tid now =
      .error (.FileOperationFailed "Too many concurrent transfers") ∧
    (AppError.FileOperationFailed "Too many concurrent transfers").error_code =
      "FILE_OPERATION_FAILED" := by
  refine ⟨rfl, ?_, ?_, rfl⟩
  · simp [start_upload, hfull]
  · simp [start_download, hfull]

/-- C1 amended-claim witness at the full manager. -/
theorem start_transfer_admission_witness :
    TransferManager.new.max_concurrent_transfers = 3 ∧
    start_upload tmFull "s1" "/tmp/f" "f" [1, 2] "t2" 0 =
      .error (.FileOperationFailed "Too many concurrent transfers") ∧
    start_download tmFull "s1" "/tmp/f" none "t2" 0 =
      .error (.FileOperationFailed "Too many concurrent transfers") ∧
    (AppError.FileOperationFailed "Too many concurrent transfers").error_code =
      "FILE_OPERATION_FAILED" :=
  start_transfer_admission tmFull "s1" "/tmp/f" "f" [1, 2] none "t2" 0
    (by decide)

/-! ## Security gate (`security.rs`) -/

/-- `SecurityConfig` from `security.rs`. -/
structure SecurityConfig where
  max_login_attempts : Nat
  lockout_duration_minutes : Int
  rate_limit_requests_per_minute : Nat
  session_timeout_minutes : Int
  require_key_fingerprint_verification : Bool
  allowed_encryption_algorithms : List String
  audit_log_retention_days : Nat
  enable_ddos_protection : Bool
  max_concurrent_connections_per_ip : Nat
  deriving Repr, DecidableEq

/-- `SecurityConfig::default`. -/
def defaultSecurityConfig : SecurityConfig :=
  { max_login_attempts := 5, lockout_duration_minutes := 15,
    rate_limit_requests_per_minute := 60, session_timeout_minutes := 30,
    require_key_fingerprint_verification := true,
    allowed_encryption_algorithms :=
      ["aes128-ctr", "aes192-ctr", "aes256-ctr",
        "aes128-gcm@openssh.com", "aes256-gcm@openssh.com"],
    audit_log_retention_days := 90, enable_ddos_protection := true,
    max_concurrent_connections_per_ip := 10 }

/-- Per-IP rate-limit ledger entry (`RateLimitEntry`). -/
structure RateLimitEntry where
  requests : List Int
  blocked_until : Option Int
  deriving Repr, DecidableEq

/-- The unblocked tail of `check_rate_limit`: retain the last minute's
timestamps (`timestamp > now - 1 min`), deny and block for 5 minutes on
reaching the ceiling, otherwise record the request. -/
def rateStep (cfg : SecurityConfig) (e : RateLimitEntry) (now : Int) :
    Bool × RateLimitEntry :=
  let kept := e.requests.filter (fun ts => now - 60 < ts)
  if kept.length ≥ cfg.rate_limit_requests_per_minute then
    (false, { requests := kept, blocked_until := some (now + 300) })
  else
    (true, { requests := kept ++ [now], blocked_until := e.blocked_until })

/-- `SecurityManager::check_rate_limit` acting on one IP's ledger entry
(`entry().or_insert_with` supplies the empty entry for a new IP).
Returns (admitted?, updated entry). -/
def check_rate_limit (cfg : SecurityConfig) (entry : Option RateLimitEntry)
    (now : Int) : Bool × RateLimitEntry :=
  let e0 := entry.getD { requests := [], blocked_until := none }
  match e0.blocked_until with
  | some t =>
    if now < t then (false, e0)
    else rateStep cfg { requests := [], blocked_until := none } now
  | none => rateStep cfg e0 now

/-- C5: while `blocked_until` lies strictly in the future every request
from that IP is denied; a request arriving at or after `blocked_until`
clears the block and the timestamp window and is admitted whenever the
(now empty) window is below the ceiling — i.e. whenever the ceiling is
positive, as the default of 60 is; and an unblocked request finding the
windowed count at the ceiling is denied and sets
`blocked_until = now + 5 minutes`. -/
theorem check_rate_limit_spec (cfg : SecurityConfig) (e : RateLimitEntry)
    (now t : Int) :
    (e.blocked_until = some t → now < t →
      check_rate_limit cfg (some e) now = (false, e)) ∧
    (e.blocked_until = some t → t ≤ now →
        0 < cfg.rate_limit_requests_per_minute →
      check_rate_limit cfg (some e) now =
        (true, { requests := [now], blocked_until := none })) ∧
    (e.blocked_until = none →
        (e.requests.filter (fun ts => now - 60 < ts)).length ≥
          cfg.rate_limit_requests_per_minute →
      check_rate_limit cfg (some e) now =
        (false, { requests := e.requests.filter (fun ts => now - 60 < ts),
                  blocked_until := some (now + 300) })) ∧
    defaultSecurityConfig.rate_limit_requests_per_minute = 60 := by
  refine ⟨?_, ?_, ?_, rfl⟩
  · intro hb hlt
    simp [check_rate_limit, hb, hlt]
  · intro hb hge hpos
    have hnlt : ¬ now < t := not_lt.mpr hge
    have hzero : ¬ ((0 : Nat) ≥ cfg.rate_limit_requests_per_minute) := by omega
    simp [check_rate_limit, hb, hnlt, rateStep, hzero]
  · intro hb hge
    simp [check_rate_limit, hb, rateStep, hge]

/-- C5 witness: a blocked entry denies at clock 50; an expired block
admits at clock 120; a full window denies and re-blocks. -/
theorem check_rate_limit_spec_witness :
    check_rate_limit defaultSecurityConfig
      (some { requests := [1, 2], blocked_until := some 100 }) 50 =
      (false, { requests := [1, 2], blocked_until := some 100 }) :=
  (check_rate_limit_spec defaultSecurityConfig
      { requests := [1, 2], blocked_until := some 100 } 50 100).1
    rfl (by decide)

/-! ## Key fingerprints (`security.rs`): SHA-256 and standard base64 -/

/-- Truncate to 32 bits. -/
def w32 (n : Nat) : Nat := n % 4294967296

/-- 32-bit right rotation. -/
def rotr32 (n x : Nat) : Nat := w32 ((x >>> n) ||| (x <<< (32 - n)))

def shaCh (x y z : Nat) : Nat := (x &&& y) ^^^ ((x ^^^ 4294967295) &&& z)

def shaMaj (x y z : Nat) : Nat := (x &&& y) ^^^ (x &&& z) ^^^ (y &&& z)

def bigSigma0 (x : Nat) : Nat := rotr32 2 x ^^^ rotr32 13 x ^^^ rotr32 22 x

def bigSigma1 (x : Nat) : Nat := rotr32 6 x ^^^ rotr32 11 x ^^^ rotr32 25 x

def smallSigma0 (x : Nat) : Nat := rotr32 7 x ^^^ rotr32 18 x ^^^ (x >>> 3)

def smallSigma1 (x : Nat) : Nat := rotr32 17 x ^^^ rotr32 19 x ^^^ (x >>> 10)

/-- The 64 SHA-256 round constants (FIPS 180-4), in decimal. -/
def shaK : List Nat :=
  [1116352408, 1899447441, 3049323471, 3921009573, 961987163,
   1508970993, 2453635748, 2870763221, 3624381080, 310598401,
   607225278, 1426881987, 1925078388, 2162078206, 2614888103,
   3248222580, 3835390401, 4022224774, 264347078, 604807628,
   770255983, 1249150122, 1555081692, 1996064986, 2554220882,
   2821834349, 2952996808, 3210313671, 3336571891, 3584528711,
   113926993, 338241895, 666307205, 773529912, 1294757372,
   1396182291, 1695183700, 1986661051, 2177026350, 2456956037,
   2730485921, 2820302411, 3259730800, 3345764771, 3516065817,
   3600352804, 4094571909, 275423344, 430227734, 506948616,
   659060556, 883997877, 958139571, 1322822218, 1537002063,
   1747873779, 1955562222, 2024104815, 2227730452, 2361852424,
   2428436474, 2756734187, 3204031479, 3329325298]

/-- The SHA-256 initial hash state (FIPS 180-4), in decimal. -/
def shaH0 : List Nat :=
  [1779033703, 3144134277, 1013904242, 2773480762,
   1359893119, 2600822924, 528734635, 1541459225]

/-- Big-endian bytes of a 64-bit value. -/
def be64 (n : Nat) : List Nat :=
  [(n >>> 56) &&& 255, (n >>> 48) &&& 255, (n >>> 40) &&& 255,
   (n >>> 32) &&& 255, (n >>> 24) &&& 255, (n >>> 16) &&& 255,
   (n >>> 8) &&& 255, n &&& 255]

/-- Big-endian bytes of a 32-bit value. -/
def be32 (n : Nat) : List Nat :=
  [(n >>> 24) &&& 255, (n >>> 16) &&& 255, (n >>> 8) &&& 255, n &&& 255]

/-- SHA-256 padding: `0x80`, zeros to 56 mod 64, 8-byte bit length. -/
def shaPad (msg : List Nat) : List Nat :=
  msg ++ 0x80 :: List.replicate ((119 - msg.length % 64) % 64) 0 ++
    be64 (msg.length * 8)

/-- Split into 64-byte blocks; the fuel argument (an upper bound on the
number of bytes) keeps the recursion structural. -/
def toBlocksAux : Nat → List Nat → List (List Nat)
  | 0, _ => []
  | _, [] => []
  | fuel + 1, b :: t => (b :: t).take 64 :: toBlocksAux fuel ((b :: t).drop 64)

def toBlocks (l : List Nat) : List (List Nat) := toBlocksAux l.length l

/-- Big-endian 32-bit words of a block. -/
def toWords : List Nat → List Nat
  | a :: b :: c :: d :: t =>
    ((((a <<< 8) ||| b) <<< 8 ||| c) <<< 8 ||| d) :: toWords t
  | _ => []

/-- Message-schedule extension; `acc` holds the words produced so far,
newest first. -/
def scheduleAux : Nat → List Nat → List Nat
  | 0, acc => acc
  | n + 1, acc =>
    let g := fun i => acc.getD i 0
    scheduleAux n
      (w32 (smallSigma1 (g 1) + g 6 + smallSigma0 (g 14) + g 15) :: acc)

/-- Extend the 16 block words to the 64-word message schedule. -/
def schedule (w : List Nat) : List Nat := (scheduleAux 48 w.reverse).reverse

/-- One SHA-256 compression round on the 8-word state. -/
def shaRound (st : List Nat) (kw : Nat × Nat) : List Nat :=
  match st with
  | [a, b, c, d, e, f, g, hh] =>
    let t1 := w32 (hh + bigSigma1 e + shaCh e f g + kw.1 + kw.2)
    let t2 := w32 (bigSigma0 a + shaMaj a b c)
    [w32 (t1 + t2), a, b, c, w32 (d + t1), e, f, g]
  | other => other

/-- Compress one 64-byte block into the running hash state. -/
def processBlock (h : List Nat) (block : List Nat) : List Nat :=
  let w := schedule (toWords block)
  let st := (shaK.zip w).foldl shaRound h
  List.zipWith (fun x y => w32 (x + y)) h st

/-- The SHA-256 digest (32 bytes) of a byte list (`Sha256::digest`). -/
def sha256 (msg : List Nat) : List Nat :=
  (((toBlocks (shaPad msg)).foldl processBlock shaH0).map be32).flatten

example : sha256 [0x61, 0x62, 0x63] =
    [186, 120, 22, 191, 143, 1, 207, 234, 65, 65, 64, 222, 93, 174, 34, 35,
     176, 3, 97, 163, 150, 23, 122, 156, 180, 16, 255, 97, 242, 0, 21, 173] := by
  decide

/-- The standard base64 alphabet
(`base64::engine::general_purpose::STANDARD`). -/
def base64Alphabet : List Char :=
  "ABCDEFGHIJKLMNOPQRSTUVWXYZabcdefghijklmnopqrstuvwxyz0123456789+/".toList

def b64c (n : Nat) : Char := base64Alphabet.getD n 'A'

/-- Standard base64 with `=` padding. -/
def base64Chars : List Nat → List Char
  | [] => []
  | [a] => [b64c (a >>> 2), b64c ((a &&& 3) <<< 4), '=', '=']
  | [a, b] =>
    [b64c (a >>> 2), b64c (((a &&& 3) <<< 4) ||| (b >>> 4)),
      b64c ((b &&& 15) <<< 2), '=']
  | a :: b :: c :: t =>
    b64c (a >>> 2) :: b64c (((a &&& 3) <<< 4) ||| (b >>> 4)) ::
      b64c (((b &&& 15) <<< 2) ||| (c >>> 6)) :: b64c (c &&& 63) ::
        base64Chars t

def base64Encode (bs : List Nat) : String := String.mk (base64Chars bs)

example : base64Encode [0x61, 0x62, 0x63] = "YWJj" := by decide
example : base64Encode [0x61, 0x62] = "YWI=" := by decide
example : base64Encode [0x61] = "YQ==" := by decide

/-- `SecurityManager::calculate_key_fingerprint`: SHA-256 the key bytes,
base64-encode the digest, prefix `"SHA256:"`.  The algorithm label is
unused, as in the source (`_algorithm`). -/
def calculate_key_fingerprint (public_key : List Nat) (_algorithm : String) :
    String :=
  "SHA256:" ++ base64Encode (sha256 public_key)

example : calculate_key_fingerprint [107, 101, 121] "ssh-rsa" =
    "SHA256:LHDhK3oGRvkiefQnx7OOczTY5Tic/xZ6HcMOc/gmtoM=" := by decide

/-- C9: the fingerprint is deterministic — it does not depend on the
unused algorithm label and is identical across invocations — and equals
`"SHA256:"` followed by the standard base64 encoding of the SHA-256
digest of the key bytes. -/
theorem calculate_key_fingerprint_spec (key : List Nat) (alg1 alg2 : String) :
    calculate_key_fingerprint key alg1 = calculate_key_fingerprint key alg2 ∧
    calculate_key_fingerprint key alg1 =
      "SHA256:" ++ base64Encode (sha256 key) :=
  ⟨rfl, rfl⟩

/-! ## Connection tracking (`security.rs`, C10) -/

/-- `SecurityManager::track_connection` acting on the per-IP counter
table; returns (admitted?, updated table).  The counter is incremented
(`and_modify(+1).or_insert(1)`) before the limit check and is NOT rolled
back on rejection. -/
def track_connection (cfg : SecurityConfig) (counts : List (String × Nat))
    (ip : String) : Bool × List (String × Nat) :=
  if ¬ cfg.enable_ddos_protection then (true, counts)
  else
    let current := (lookupA counts ip).getD 0 + 1
    let counts1 := setA counts ip current
    if current > cfg.max_concurrent_connections_per_ip then (false, counts1)
    else (true, counts1)

/-- `SecurityManager::release_connection`: `and_modify` decrements only
when the counter is positive; a missing entry stays missing. -/
def release_connection (counts : List (String × Nat)) (ip : String) :
    List (String × Nat) :=
  match lookupA counts ip with
  | none => counts
  | some c => if c > 0 then setA counts ip (c - 1) else counts

/-- C10: with DDoS protection enabled, `track_connection` increments the
per-IP counter before checking the limit and leaves it incremented even
when the connection is rejected (it admits exactly when the incremented
count is within the cap); `release_connection` decrements only a
positive counter — a zero counter and a missing entry are left as they
are — so the counter never goes below zero. -/
theorem track_connection_spec (cfg : SecurityConfig)
    (counts : List (String × Nat)) (ip : String)
    (hddos : cfg.enable_ddos_protection = true) :
    (lookupA (track_connection cfg counts ip).2 ip =
      some ((lookupA counts ip).getD 0 + 1)) ∧
    ((track_connection cfg counts ip).1 = true ↔
      (lookupA counts ip).getD 0 + 1 ≤ cfg.max_concurrent_connections_per_ip) ∧
    (∀ c, lookupA counts ip = some c →
      lookupA (release_connection counts ip) ip =
        some (if 0 < c then c - 1 else c)) ∧
    (lookupA counts ip = none →
      lookupA (release_connection counts ip) ip = none) := by
  refine ⟨?_, ?_, ?_, ?_⟩
  · by_cases hc : (lookupA counts ip).getD 0 + 1 >
        cfg.max_concurrent_connections_per_ip
    · simp [track_connection, hddos, hc, lookupA_setA_self]
    · simp [track_connection, hddos, hc, lookupA_setA_self]
  · by_cases hc : (lookupA counts ip).getD 0 + 1 >
        cfg.max_concurrent_connections_per_ip
    · simp only [track_connection, hddos]
      simp [hc]
      try omega
    · simp only [track_connection, hddos]
      simp [hc]
      try omega
  · intro c hc
    by_cases hpos : c > 0
    · simp [release_connection, hc, hpos, lookupA_setA_self]
    · have hz : c = 0 := by omega
      subst hz
      simp [release_connection, hc]
  · intro hnone
    simp [release_connection, hnone]

/-- C10 witness: IP `"ip1"` at count 10 with the default cap 10 — the
eleventh connection is rejected but the counter still reads 11; a
release on a zero counter stays at 0. -/
theorem track_connection_spec_witness :
    lookupA (track_connection defaultSecurityConfig [("ip1", 10)] "ip1").2
      "ip1" = some 11 :=
  (track_connection_spec defaultSecurityConfig [("ip1", 10)] "ip1" rfl).1

/-! ## Recorder (`recording.rs`) -/

/-- `TerminalEventType` from `recording.rs`. -/
inductive TerminalEventType where
  | Input
  | Output
  | Resize
  | Connect
  | Disconnect
  | Command
  | Error
  deriving Repr, DecidableEq

/-- `TerminalEvent` from `recording.rs`. -/
structure TerminalEvent where
  timestamp : Int
  event_type : TerminalEventType
  data : String
  metadata : Option (List (String × String))
  deriving Repr, DecidableEq

/-- `RecordingMetadata` from `recording.rs`. -/
structure RecordingMetadata where
  recording_id : String
  session_id : String
  user_id : Option String
  hostname : String
  start_time : Int
  end_time : Option Int
  duration_seconds : Option Nat
  total_events : Nat
  file_size_bytes : Nat
  terminal_size : Option (Nat × Nat)
  tags : List String
  description : Option String
  compressed : Bool
  deriving Repr, DecidableEq

/-- `ActiveRecording`: the event list models the appended log file (the
file handle and per-event flush are not separately represented). -/
structure ActiveRecording where
  metadata : RecordingMetadata
  events : List TerminalEvent
  last_activity : Int
  size_bytes : Nat
  deriving Repr, DecidableEq

/-- `RecordingConfig` from `recording.rs`; the storage path is carried
as a string. -/
structure RecordingConfig where
  enabled : Bool
  storage_path : String
  max_recording_size_mb : Nat
  retention_days : Nat
  compress_recordings : Bool
  include_metadata : Bool
  auto_cleanup : Bool
  deriving Repr, DecidableEq

/-- `RecordingConfig::default`: the size cap defaults to 100 MiB. -/
def defaultRecordingConfig : RecordingConfig :=
  { enabled := true, storage_path := "./recordings",
    max_recording_size_mb := 100, retention_days := 30,
    compress_recordings := true, include_metadata := true,
    auto_cleanup := true }

/-- `RecordingManager` state. -/
structure RecordingManager where
  config : RecordingConfig
  active_recordings : List (String × ActiveRecording)
  metadata_cache : List (String × RecordingMetadata)
  deriving Repr, DecidableEq

/-- `ActiveRecording::add_event`.  `eventSize` abstracts
`serde_json::to_string(&event).len()`: the recorder uses only the
serialized length, never the JSON text itself. -/
def add_event (eventSize : TerminalEvent → Nat) (r : ActiveRecording)
    (e : TerminalEvent) (now : Int) : ActiveRecording :=
  { metadata :=
      { r.metadata with
        total_events := r.metadata.total_events + 1
        file_size_bytes := r.size_bytes + eventSize e },
    events := r.events ++ [e],
    last_activity := now,
    size_bytes := r.size_bytes + eventSize e }

/-- `ActiveRecording::finalize` (the `as u64` cast of the duration is
modelled by `Int.toNat`; durations are non-negative in every reachable
state). -/
def finalizeRec (r : ActiveRecording) (now : Int) : ActiveRecording :=
  { r with
    metadata :=
      { r.metadata with
        end_time := some now
        duration_seconds := some (now - r.metadata.start_time).toNat } }

/-- The closing event `stop_recording` appends. -/
def disconnectEvent (session_id : String) (now : Int) : TerminalEvent :=
  { timestamp := now, event_type := .Disconnect,
    data := "Recording stopped for session " ++ session_id, metadata := none }

/-- `RecordingManager::stop_recording`: remove the active recording,
append the disconnect event, finalize, and index the metadata; an
unknown session yields `none`. -/
def stop_recording (eventSize : TerminalEvent → Nat) (mgr : RecordingManager)
    (session_id : String) (now : Int) :
    Except AppError (Option RecordingMetadata × RecordingManager) :=
  match lookupA mgr.active_recordings session_id with
  | none => .ok (none, mgr)
  | some r =>
    let r1 :=
      finalizeRec (add_event eventSize r (disconnectEvent session_id now) now) now
    .ok (some r1.metadata,
      { mgr with
        active_recordings := removeA mgr.active_recordings session_id
        metadata_cache := setA mgr.metadata_cache r1.metadata.recording_id
          r1.metadata })

/-- `RecordingManager::record_event`: a no-op when recording is disabled
or the session has no active recording; when the accumulated size
ALREADY strictly exceeds the cap, the recording is stopped and the
incoming event is dropped; otherwise the event is appended. -/
def record_event (eventSize : TerminalEvent → Nat) (mgr : RecordingManager)
    (session_id : String) (e : TerminalEvent) (now : Int) :
    Except AppError RecordingManager :=
  if ¬ mgr.config.enabled then .ok mgr
  else
    match lookupA mgr.active_recordings session_id with
    | none => .ok mgr
    | some r =>
      if r.size_bytes > mgr.config.max_recording_size_mb * 1024 * 1024 then
        match stop_recording eventSize mgr session_id now with
        | .error err => .error err
        | .ok (_, mgr1) => .ok mgr1
      else
        .ok { mgr with
          active_recordings :=
            setA mgr.active_recordings session_id (add_event eventSize r e now) }

/-- A concrete serialized-size function for the concrete states below. -/
def exSize (e : TerminalEvent) : Nat := e.data.length

def exMeta : RecordingMetadata :=
  { recording_id := "r1", session_id := "s1", user_id := none,
    hostname := "h", start_time := 0, end_time := none,
    duration_seconds := none, total_events := 0, file_size_bytes := 0,
    terminal_size := none, tags := [], description := none,
    compressed := false }

/-- An active recording with nothing accumulated yet. -/
def exRec : ActiveRecording :=
  { metadata := exMeta, events := [], last_activity := 0, size_bytes := 0 }

/-- A manager whose size cap is 0 bytes, recording session `"s1"`. -/
def exMgr : RecordingManager :=
  { config := { defaultRecordingConfig with max_recording_size_mb := 0 },
    active_recordings := [("s1", exRec)],
    metadata_cache := [] }

/-- A 10-byte event. -/
def exEvent : TerminalEvent :=
  { timestamp := 5, event_type := .Output, data := "0123456789",
    metadata := none }

/-- C4 counterexample: the cap is 0 bytes and the accumulated size is 0,
so appending the 10-byte event pushes the size past the cap — yet
`record_event` does NOT stop the recording: the event is appended and
the recording stays active (the stop fires only on the NEXT append,
whose event is then dropped). -/
theorem record_event_over_cap_does_not_stop :
    exRec.size_bytes ≤ exMgr.config.max_recording_size_mb * 1024 * 1024 ∧
    exRec.size_bytes + exSize exEvent >
      exMgr.config.max_recording_size_mb * 1024 * 1024 ∧
    ((record_event exSize exMgr "s1" exEvent 5).toOption.bind
      (fun m => lookupA m.active_recordings "s1")).map
        (fun r => r.events.length) = some 1 := by
  refine ⟨by decide, by decide, ?_⟩
  rfl

/-- C4 (amended): once a recording's accumulated byte-size strictly
exceeds the cap, the next append stops the recording — the triggering
event is dropped, the final log is the prior events followed by the
closing disconnect event, the finalized metadata is indexed, and the
session stops being recorded; an append for a session with no active
recording is a no-op that starts nothing.  (An append that merely pushes
the size up to or past the cap is still recorded; see the
counterexample.) -/
theorem record_event_size_cap (eventSize : TerminalEvent → Nat)
    (mgr : RecordingManager) (session_id : String) (e : TerminalEvent)
    (now : Int) (r : ActiveRecording)
    (henabled : mgr.config.enabled = true) :
    (lookupA mgr.active_recordings session_id = some r →
      r.size_bytes > mgr.config.max_recording_size_mb * 1024 * 1024 →
      ∃ mgr1, record_event eventSize mgr session_id e now = .ok mgr1 ∧
        lookupA mgr1.active_recordings session_id = none ∧
        lookupA mgr1.metadata_cache r.metadata.recording_id =
          some (finalizeRec
            (add_event eventSize r (disconnectEvent session_id now) now)
            now).metadata ∧
        (add_event eventSize r (disconnectEvent session_id now) now).events =
          r.events ++ [disconnectEvent session_id now]) ∧
    (lookupA mgr.active_recordings session_id = none →
      record_event eventSize mgr session_id e now = .ok mgr) := by
  constructor
  · intro hl hsz
    refine ⟨{ mgr with
        active_recordings := removeA mgr.active_recordings session_id
        metadata_cache := setA mgr.metadata_cache
          (finalizeRec
            (add_event eventSize r (disconnectEvent session_id now) now)
            now).metadata.recording_id
          (finalizeRec
            (add_event eventSize r (disconnectEvent session_id now) now)
            now).metadata }, ?_, ?_, ?_, rfl⟩
    · simp [record_event, henabled, hl, hsz, stop_recording]
    · exact lookupA_removeA_self _ _
    · exact lookupA_setA_self _ _ _
  · intro hnone
    simp [record_event, henabled, hnone]

/-- An active recording already 10 bytes past a 0-byte cap. -/
def exRecFull : ActiveRecording :=
  { metadata := exMeta, events := [exEvent], last_activity := 5,
    size_bytes := 10 }

def exMgrFull : RecordingManager :=
  { config := { defaultRecordingConfig with max_recording_size_mb := 0 },
    active_recordings := [("s1", exRecFull)],
    metadata_cache := [] }

/-- C4 amended-claim witness: the over-cap state stops on the next
append and drops its event. -/
theorem record_event_size_cap_witness :
    ∃ mgr1, record_event exSize exMgrFull "s1" exEvent 9 = .ok mgr1 ∧
      lookupA mgr1.active_recordings "s1" = none ∧
      lookupA mgr1.metadata_cache exRecFull.metadata.recording_id =
        some (finalizeRec
          (add_event exSize exRecFull (disconnectEvent "s1" 9) 9) 9).metadata ∧
      (add_event exSize exRecFull (disconnectEvent "s1" 9) 9).events =
        exRecFull.events ++ [disconnectEvent "s1" 9] :=
  (record_event_size_cap exSize exMgrFull "s1" exEvent 9 exRecFull rfl).1
    rfl (by decide)
